import Mathlib

/-!
Verification development for the medical-claims dashboard.

The repository's core is a set of Next.js route handlers over an in-memory
claim store plus two boundary adapters (an analysis-response normalizer and
a generic proxy).  We embed the route handlers as pure Lean functions:
the mutable global store becomes an explicit `List Claim` threaded through,
`new Date().toLocaleDateString("en-GB")` becomes a `today : String`
parameter, JSON values that the code treats opaquely become `String`s or
small inductive values, and JavaScript's `a || b` / `a?.f` idioms become
explicit helper functions over `Option`.
-/

namespace MedClaims

/-- Opaque JSON scalar values (used where the code passes extracted data through). -/
inductive JVal
  | str (s : String)
  | num (n : Int)
  deriving DecidableEq, Repr

/-- JavaScript `a || d` where `a` is a string-or-undefined expression:
the empty string and `undefined` are falsy, any other string is truthy. -/
def jsOrS : Option String → String → String
  | some s, d => if s = "" then d else s
  | none, d => d

/-- JavaScript `a || d` where `a` is a number-or-undefined expression:
`0` and `undefined` are falsy. -/
def jsOrI : Option Int → Int → Int
  | some n, d => if n = 0 then d else n
  | none, d => d

/-- JavaScript truthiness of a string-or-undefined value. -/
def jsTruthyS : Option String → Bool
  | some s => s ≠ ""
  | none => false

/-- One entry of a claim's processing timeline. -/
structure TimelineEntry where
  status : String
  date : String
  completed : Bool
  deriving DecidableEq, Repr

/-- One uploaded-document record stored on a claim. -/
structure DocumentEntry where
  name : String
  size : String
  uploadedDate : String
  deriving DecidableEq, Repr

/-- The `aiAnalysis` sub-record built on claim creation from a supplied
analysis result (part_002, `aiAnalysis: body.analysisResult ? {...} : null`). -/
structure AiAnalysis where
  confidence : Int
  completeness : Int
  decisionReasoning : String
  detailedAnalysis : String
  improvementSuggestions : List String
  extractedData : List (String × JVal)
  deriving DecidableEq, Repr

/-- The analysis result attached to a submission (parsed from JSON, so every
field may be absent). -/
structure AnalysisResult where
  status : Option String
  confidence : Option Int
  completeness : Option Int
  decision_reasoning : Option String
  detailed_analysis : Option String
  improvement_suggestions : Option (List String)
  extracted_data : Option (List (String × JVal))
  deriving DecidableEq, Repr

/-- A claim record, with the exact fields built by the POST /claims handler. -/
structure Claim where
  id : String
  patientId : String
  patientName : String
  status : String
  type : String
  provider : String
  amount : String
  submitted : String
  dob : String
  serviceDate : String
  diagnosis : String
  notes : String
  aiAnalysis : Option AiAnalysis
  timeline : List TimelineEntry
  documents : List DocumentEntry
  deriving DecidableEq, Repr

/-- The submitted form fields of POST /claims (part_002 builds `body` from
the multipart form data or the JSON body). -/
structure Submission where
  firstName : String
  lastName : String
  dob : String
  patientId : String
  claimType : String
  serviceDate : String
  provider : String
  amount : String
  diagnosis : String
  notes : Option String
  analysisResult : Option AnalysisResult
  deriving DecidableEq, Repr

/-- An uploaded file: its name and byte size. -/
structure FileUpload where
  name : String
  size : Nat
  deriving DecidableEq, Repr

/-- `String(n).padStart(3, "0")`. -/
def padStart3 (s : String) : String :=
  if s.length ≥ 3 then s else String.mk (List.replicate (3 - s.length) '0') ++ s

/-- Id generation in part_002: `CLM-2024-${String(claimsData.length + 1).padStart(3, "0")}`.
Note the year is the literal 2024, not derived from the clock. -/
def newClaimId (storeSize : Nat) : String :=
  "CLM-2024-" ++ padStart3 (toString (storeSize + 1))

/-- `(file.size / 1024 / 1024).toFixed(2)` rendered over integers:
the megabyte value with two decimal places (rounded to nearest hundredth). -/
def formatMB (bytes : Nat) : String :=
  let hundredths := (bytes * 100 + (1024 * 1024) / 2) / (1024 * 1024)
  let frac := toString (hundredths % 100)
  toString (hundredths / 100) ++ "." ++ (if frac.length ≥ 2 then frac else "0" ++ frac)

/-- The new-claim record built by POST /claims (part_002), given the store
contents, the parsed submission, the uploaded files, and today's date string. -/
def mkNewClaim (store : List Claim) (sub : Submission) (files : List FileUpload)
    (today : String) : Claim :=
  { id := newClaimId store.length
    patientId := sub.patientId
    patientName := sub.firstName ++ " " ++ sub.lastName
    status := jsOrS (sub.analysisResult.bind (·.status)) "pending"
    type := sub.claimType
    provider := sub.provider
    amount := sub.amount
    submitted := today
    dob := sub.dob
    serviceDate := sub.serviceDate
    diagnosis := sub.diagnosis
    notes := jsOrS sub.notes ""
    aiAnalysis := sub.analysisResult.map (fun ar =>
      { confidence := jsOrI ar.confidence 0
        completeness := jsOrI ar.completeness 0
        decisionReasoning := jsOrS ar.decision_reasoning ""
        detailedAnalysis := jsOrS ar.detailed_analysis ""
        improvementSuggestions := ar.improvement_suggestions.getD []
        extractedData := ar.extracted_data.getD [] })
    timeline :=
      [ ⟨"Claim submitted", today, true⟩,
        ⟨"Documents verified by AI",
          if sub.analysisResult.isSome then today else "",
          sub.analysisResult.isSome⟩,
        ⟨"Under review by claim handler", "", false⟩,
        ⟨"Approved for payment", "", false⟩,
        ⟨"Payment processed", "", false⟩ ]
    documents := files.map (fun f => ⟨f.name, formatMB f.size ++ " MB", today⟩) }

/-- POST /claims (part_002): builds the claim, pushes it onto the store,
responds 201 with the new claim.  Returns (new store, created claim, HTTP status). -/
def postClaims (store : List Claim) (sub : Submission) (files : List FileUpload)
    (today : String) : List Claim × Claim × Nat :=
  let c := mkNewClaim store sub files today
  (store ++ [c], c, 201)

/-- GET /claims (part_002): `if (status && status !== "all") filter else all`. -/
def getClaims (store : List Claim) (status : Option String) : List Claim :=
  match status with
  | some s => if s ≠ "" && s ≠ "all" then store.filter (fun c => c.status = s) else store
  | none => store

/-- GET /claims/{id} (src/app/api/claims/[id]/route.ts):
`claimsData.find((c) => c.id === params.id)`, 404 when absent. -/
def getClaimById (store : List Claim) (id : String) : Option Claim :=
  store.find? (fun c => c.id = id)

/-! ## The submission form (part_001)

The new-claim page holds all form fields as strings and checks, before
issuing any request, that none of the required ones is empty; on a missing
field it shows a "Validation Error" toast and returns without submitting. -/

/-- The client-side form state (all fields strings, as in the page's `useState`). -/
structure FormState where
  firstName : String
  lastName : String
  dob : String
  patientId : String
  claimType : String
  serviceDate : String
  provider : String
  amount : String
  diagnosis : String
  notes : String
  deriving DecidableEq, Repr

/-- The page's required-field check:
`!firstName || !lastName || ... || !diagnosis` (empty string is falsy). -/
def missingRequired (f : FormState) : Bool :=
  f.firstName = "" || f.lastName = "" || f.dob = "" || f.patientId = "" ||
  f.claimType = "" || f.serviceDate = "" || f.provider = "" || f.amount = "" ||
  f.diagnosis = ""

/-- What `handleSubmit` does: signal a validation error, or issue the POST
with the assembled form data. -/
inductive SubmitAction
  | validationError
  | post (sub : Submission)
  deriving DecidableEq, Repr

/-- `handleSubmit` in part_001: validate, then build the multipart submission
(notes always appended; the analysis result appended when available). -/
def handleSubmit (f : FormState) (ar : Option AnalysisResult) : SubmitAction :=
  if missingRequired f then .validationError
  else .post ⟨f.firstName, f.lastName, f.dob, f.patientId, f.claimType,
    f.serviceDate, f.provider, f.amount, f.diagnosis, some f.notes, ar⟩

/-- The end-to-end submission flow (form handler followed, on success, by the
POST /claims route): returns the resulting store, the created claim when one
was created, and the validation-error message when validation failed. -/
def submitFlow (store : List Claim) (f : FormState) (ar : Option AnalysisResult)
    (files : List FileUpload) (today : String) :
    List Claim × Option Claim × Option String :=
  match handleSubmit f ar with
  | .validationError => (store, none, some "Please fill in all required fields marked with *")
  | .post sub =>
    let r := postClaims store sub files today
    (r.1, some r.2.1, none)

/-! ## POST /analyze (part_005)

The route forwards the uploaded document to the Flask service and transforms
the response into the dashboard's shape; every failure of the external call
(network error, non-2xx — which the code turns into a thrown `Error` —
or an unparsable body) lands in the `catch`, which answers 200 with a fixed
mock result. -/

/-- A validation-error entry of the external response. -/
structure VError where
  error : String
  deriving DecidableEq, Repr

/-- The external service's `document_analysis` object (every field optional). -/
structure DocAnalysis where
  overall_status : Option String
  confidence_level : Option Int
  completeness_score : Option Int
  processing_notes : Option String
  validation_errors : Option (List VError)
  recommendations : Option (List String)
  extracted_data : Option (List (String × JVal))
  deriving DecidableEq, Repr

/-- The external service's top-level response body. -/
structure FlaskData where
  status : Option String
  document_analysis : Option DocAnalysis
  improvement_suggestions : Option (List String)
  deriving DecidableEq, Repr

/-- The normalized analysis shape the frontend expects (`transformedData`,
also the shape of the mock fallback). -/
structure AnalysisOut where
  status : String
  confidence : Int
  completeness : Int
  decision_reasoning : String
  detailed_analysis : String
  improvement_suggestions : List String
  extracted_data : List (String × JVal)
  deriving DecidableEq, Repr

/-- The `transformedData` computation of part_005, field by field.
Arrays and objects are truthy in JavaScript even when empty, so the
`|| []` / `|| {}` defaults fire only on absence (`Option.getD`); string
defaults fire on absence or emptiness (`jsOrS`); numeric defaults on
absence or zero (`jsOrI`). -/
def transformData (data : FlaskData) : AnalysisOut :=
  let da := data.document_analysis
  { status :=
      if da.bind (·.overall_status) = some "COMPLETE" then "approved"
      else if da.bind (·.overall_status) = some "INCOMPLETE" then "pending"
      else jsOrS (da.bind (·.overall_status)) (jsOrS data.status "pending")
    confidence := jsOrI (da.bind (·.confidence_level)) 0
    completeness := jsOrI (da.bind (·.completeness_score)) 0
    decision_reasoning :=
      jsOrS (da.bind (·.processing_notes))
        (jsOrS ((da.bind (·.validation_errors)).map
            (fun es => String.intercalate ". " (es.map (·.error))))
          "Document analyzed successfully")
    detailed_analysis :=
      jsOrS (da.bind (·.processing_notes))
        "Document analysis completed successfully. All required fields have been extracted and validated."
    improvement_suggestions :=
      data.improvement_suggestions.getD ((da.bind (·.recommendations)).getD [])
    extracted_data := (da.bind (·.extracted_data)).getD [] }

/-- The fixed mock result returned by the `catch` branch of part_005. -/
def mockAnalysis : AnalysisOut :=
  { status := "approved"
    confidence := 95
    completeness := 100
    decision_reasoning :=
      "The claim was approved as it contains all required information, including a valid policy number and a clear description of the incident. The documentation provided, such as the medical report and photos of the treatment, supports the claim and aligns with the estimated costs. Additionally, the incident occurred within the coverage dates, and there are no indicators of fraud or discrepancies."
    detailed_analysis :=
      "Document analysis completed successfully. All required fields have been extracted and validated."
    improvement_suggestions :=
      ["Consider adding more detailed treatment notes", "Include itemized billing statement"]
    extracted_data :=
      [("billed_amount", JVal.num 2850),
       ("patient_name", JVal.str "John Michael Smith"),
       ("policy_number", JVal.str "POL-2024-789456"),
       ("service_date", JVal.str "2024-10-15")] }

/-- Outcome of the external fetch to the Flask service: network failure,
non-2xx response (the code throws on `!response.ok`), a 2xx response whose
body fails to parse as JSON, or a parsed JSON body. -/
inductive FetchOutcome
  | netErr
  | httpErr (status : Nat) (text : String)
  | badBody
  | ok (data : FlaskData)
  deriving DecidableEq, Repr

/-- Whether the external call failed in any way. -/
def FetchOutcome.isFailure : FetchOutcome → Bool
  | .ok _ => false
  | _ => true

/-- Body of the /analyze response: a normalized result or an error message. -/
inductive AnalyzeBody
  | result (r : AnalysisOut)
  | errorMsg (m : String)
  deriving DecidableEq, Repr

/-- An HTTP response of the /analyze route: status code and JSON body. -/
structure AnalyzeResp where
  statusCode : Nat
  body : AnalyzeBody
  deriving DecidableEq, Repr

/-- POST /analyze (part_005): 400 when no file was supplied; otherwise the
transformed external response on success, and the fixed mock (status 200)
whenever the external call fails in any way. -/
def analyzePost (file : Option FileUpload) (outcome : FetchOutcome) : AnalyzeResp :=
  match file with
  | none => ⟨400, .errorMsg "No file provided"⟩
  | some _ =>
    match outcome with
    | .ok data => ⟨200, .result (transformData data)⟩
    | _ => ⟨200, .result mockAnalysis⟩

/-! ## The generic proxy (part_006)

Four handlers (GET/POST/PUT/DELETE) forward to `{FLASK_APP_URL}/{path}`;
GET and PUT append the incoming query string; POST and PUT forward the parsed
JSON request body; every handler sends exactly the header
`Content-Type: application/json` and relays the backend's status and JSON
body, collapsing every failure into a 500 with a per-method generic message. -/

/-- HTTP method of a proxied request. -/
inductive Method
  | get
  | post
  | put
  | delete
  deriving DecidableEq, Repr

/-- The method as the string passed to `fetch`. -/
def methodStr : Method → String
  | .get => "GET"
  | .post => "POST"
  | .put => "PUT"
  | .delete => "DELETE"

/-- An incoming request to /proxy/{...path}.  `jsonBody` is the outcome of
`await request.json()`: `none` means the body does not parse (the handler
throws before fetching).  Headers are carried to state that they never
reach the forwarded request. -/
structure ProxyRequest where
  method : Method
  path : List String
  queryString : String
  headers : List (String × String)
  jsonBody : Option String
  deriving DecidableEq, Repr

/-- The request the proxy sends to the backend. -/
structure OutboundRequest where
  url : String
  httpMethod : String
  headers : List (String × String)
  body : Option String
  deriving DecidableEq, Repr

/-- `params.path.join("/")`. -/
def joinPath (segs : List String) : String :=
  String.intercalate "/" segs

/-- The forwarded URL: base, slash, joined path, and — when `withQuery` and
the query string is non-empty (JS truthiness of `searchParams.toString()`) —
`?` and the query string. -/
def proxyUrl (base : String) (path : List String) (query : String)
    (withQuery : Bool) : String :=
  base ++ "/" ++ joinPath path ++ (if withQuery && query ≠ "" then "?" ++ query else "")

/-- The outbound request each handler builds, `none` when the handler throws
before fetching (unparsable JSON body on POST/PUT). -/
def outboundOf (base : String) (req : ProxyRequest) : Option OutboundRequest :=
  match req.method with
  | .get =>
    some ⟨proxyUrl base req.path req.queryString true, "GET",
      [("Content-Type", "application/json")], none⟩
  | .post =>
    req.jsonBody.map (fun b =>
      ⟨proxyUrl base req.path req.queryString false, "POST",
        [("Content-Type", "application/json")], some b⟩)
  | .put =>
    req.jsonBody.map (fun b =>
      ⟨proxyUrl base req.path req.queryString true, "PUT",
        [("Content-Type", "application/json")], some b⟩)
  | .delete =>
    some ⟨proxyUrl base req.path req.queryString false, "DELETE",
      [("Content-Type", "application/json")], none⟩

/-- Outcome of the proxy's fetch: network failure, or a response with a
status code and a body that either parses as JSON (`some`) or does not. -/
inductive ProxyFetch
  | netErr
  | resp (status : Nat) (body : Option String)
  deriving DecidableEq, Repr

/-- Body of a proxy response: relayed JSON or the generic error object. -/
inductive ProxyBody
  | json (s : String)
  | errorMsg (m : String)
  deriving DecidableEq, Repr

/-- An HTTP response of the proxy route. -/
structure ProxyResp where
  statusCode : Nat
  body : ProxyBody
  deriving DecidableEq, Repr

/-- The per-method generic error message of the catch branches. -/
def proxyErrMsg : Method → String
  | .get => "Failed to fetch from FastAPI server"
  | .post => "Failed to post to FastAPI server"
  | .put => "Failed to update on FastAPI server"
  | .delete => "Failed to delete on FastAPI server"

/-- The proxy handler (part_006), one function for all four methods: on an
unparsable incoming body or any fetch/JSON failure answer 500 with the
generic message, otherwise relay the backend's status and body. -/
def proxyHandle (base : String) (req : ProxyRequest) (fr : ProxyFetch) : ProxyResp :=
  match outboundOf base req with
  | none => ⟨500, .errorMsg (proxyErrMsg req.method)⟩
  | some _ =>
    match fr with
    | .netErr => ⟨500, .errorMsg (proxyErrMsg req.method)⟩
    | .resp _ none => ⟨500, .errorMsg (proxyErrMsg req.method)⟩
    | .resp st (some b) => ⟨st, .json b⟩

/-! ## Concrete inputs used by counterexamples and witnesses -/

/-- The concrete submission of the spec's concrete scenario (no files, no
analysis result). -/
def subJohn : Submission :=
  { firstName := "John", lastName := "Doe", dob := "1990-01-01",
    patientId := "PAT-1", claimType := "outpatient", serviceDate := "2024-01-01",
    provider := "City Clinic", amount := "100.00", diagnosis := "Checkup",
    notes := none, analysisResult := none }

/-- A submission with every required field empty. -/
def subEmpty : Submission :=
  { firstName := "", lastName := "", dob := "", patientId := "", claimType := "",
    serviceDate := "", provider := "", amount := "", diagnosis := "",
    notes := none, analysisResult := none }

/-- The claim the scenario submission creates on an empty store. -/
def claimJohn : Claim := mkNewClaim [] subJohn [] "12/10/2026"

/-- A decidable check for the id pattern CLM-(4 digits)-(3 digits). -/
def matchesClmPattern (s : String) : Bool :=
  match s.toList with
  | ['C', 'L', 'M', '-', a, b, c, d, '-', e, f, g] =>
    a.isDigit && b.isDigit && c.isDigit && d.isDigit &&
    e.isDigit && f.isDigit && g.isDigit
  | _ => false

/-- The id format the spec prescribes, written from the spec's words:
CLM, the current year, and the store size plus one zero-padded to 3 digits. -/
def claimIdSpec (year seq : Nat) : String :=
  "CLM-" ++ toString year ++ "-" ++ padStart3 (toString seq)

set_option maxHeartbeats 4000000 in
set_option maxRecDepth 10000 in
/-- Ids generated while the store has fewer than 999 claims match the
CLM-(4 digits)-(3 digits) pattern. -/
theorem newClaimId_pattern : ∀ n < 999, matchesClmPattern (newClaimId n) = true := by
  decide

/-! ## C1: required-field validation -/

/-- Claim C1 counterexample: the POST /claims route itself performs no
required-field validation — a submission with every required field empty is
accepted with status 201 and appended to the store, so claim creation does
not fail and the store is mutated. -/
theorem c1_counterexample :
    (postClaims [] subEmpty [] "12/10/2026").2.2 = 201 ∧
    (postClaims [] subEmpty [] "12/10/2026").1.length = 1 ∧
    (postClaims [] subEmpty [] "12/10/2026").1 ≠ [] := by
  exact ⟨rfl, rfl, by decide⟩

/-- Claim C1 (amended): required-field validation happens only in the
submission form's handler — when any required field is empty the handler
signals the validation error and issues no POST, so the store is unchanged
and no claim is created; the POST /claims route itself does not validate. -/
theorem c1_validation_at_form_layer :
    ∀ (store : List Claim) (f : FormState) (ar : Option AnalysisResult)
      (files : List FileUpload) (today : String),
      missingRequired f = true →
      submitFlow store f ar files today =
        (store, none, some "Please fill in all required fields marked with *") := by
  intro store f ar files today h
  simp [submitFlow, handleSubmit, h]

/-- Witness for C1's amended theorem at a concrete all-empty form. -/
theorem c1_validation_at_form_layer_witness :
    missingRequired ⟨"", "", "", "", "", "", "", "", "", ""⟩ = true ∧
    submitFlow [] ⟨"", "", "", "", "", "", "", "", "", ""⟩ none [] "12/10/2026" =
      ([], none, some "Please fill in all required fields marked with *") :=
  ⟨by decide, c1_validation_at_form_layer [] _ none [] "12/10/2026" (by decide)⟩

/-! ## C2: analyze-failure fallback -/

/-- Claim C2: whenever the external analysis call fails in any way (network
error, non-2xx response, or malformed body), POST /analyze does not surface
an error: it answers 200 with exactly the fixed mock result — status
"approved", confidence 95, completeness 100, the canned reasoning and
detailed-analysis texts, the two canned suggestions, and the canned
extracted fields. -/
theorem c2_analyze_failure_yields_mock :
    ∀ (f : FileUpload) (o : FetchOutcome), o.isFailure = true →
      analyzePost (some f) o = ⟨200, .result mockAnalysis⟩ ∧
      mockAnalysis.status = "approved" ∧
      mockAnalysis.confidence = 95 ∧
      mockAnalysis.completeness = 100 ∧
      mockAnalysis.detailed_analysis =
        "Document analysis completed successfully. All required fields have been extracted and validated." ∧
      mockAnalysis.improvement_suggestions =
        ["Consider adding more detailed treatment notes",
         "Include itemized billing statement"] ∧
      mockAnalysis.extracted_data =
        [("billed_amount", JVal.num 2850),
         ("patient_name", JVal.str "John Michael Smith"),
         ("policy_number", JVal.str "POL-2024-789456"),
         ("service_date", JVal.str "2024-10-15")] := by
  intro f o h
  refine ⟨?_, rfl, rfl, rfl, rfl, rfl, rfl⟩
  cases o with
  | ok d => simp [FetchOutcome.isFailure] at h
  | netErr => rfl
  | httpErr s t => rfl
  | badBody => rfl

/-- Witness for C2 at a concrete file and a network error. -/
theorem c2_analyze_failure_yields_mock_witness :
    FetchOutcome.netErr.isFailure = true ∧
    analyzePost (some ⟨"doc.pdf", 1000⟩) FetchOutcome.netErr =
      ⟨200, .result mockAnalysis⟩ :=
  ⟨rfl, (c2_analyze_failure_yields_mock ⟨"doc.pdf", 1000⟩ .netErr rfl).1⟩

/-! ## C3: id format -/

/-- Claim C3 counterexample: the route hardcodes the year 2024 into the id,
so a claim created in 2026 is assigned CLM-2024-001 and not the
CLM-(current year)-(padded sequence) id the spec prescribes. -/
theorem c3_counterexample :
    (mkNewClaim [] subJohn [] "12/10/2026").id = "CLM-2024-001" ∧
    claimIdSpec 2026 1 = "CLM-2026-001" ∧
    (mkNewClaim [] subJohn [] "12/10/2026").id ≠ claimIdSpec 2026 1 := by
  exact ⟨by decide, by decide, by decide⟩

/-- Claim C3 (amended): the assigned id is the literal "CLM-2024-" followed
by the store size before insertion plus 1, zero-padded to at least 3 digits
(the year part is hardcoded, not the current year); whenever the store holds
fewer than 999 claims the id matches the CLM-(4 digits)-(3 digits) pattern. -/
theorem c3_amended_id_format :
    ∀ (store : List Claim) (sub : Submission) (files : List FileUpload) (today : String),
      (mkNewClaim store sub files today).id =
        "CLM-2024-" ++ padStart3 (toString (store.length + 1)) ∧
      (store.length < 999 →
        matchesClmPattern (mkNewClaim store sub files today).id = true) := by
  intro store sub files today
  exact ⟨rfl, fun h => newClaimId_pattern store.length h⟩

/-- Witness for C3's amended theorem on the empty store. -/
theorem c3_amended_id_format_witness :
    ([] : List Claim).length < 999 ∧
    matchesClmPattern (mkNewClaim [] subJohn [] "12/10/2026").id = true :=
  ⟨by decide, (c3_amended_id_format [] subJohn [] "12/10/2026").2 (by decide)⟩

/-! ## C4: external status normalization -/

/-- An external `document_analysis` whose `overall_status` is present but
equal to the empty string. -/
def daEmptyStatus : DocAnalysis :=
  { overall_status := some "", confidence_level := none, completeness_score := none,
    processing_notes := none, validation_errors := none, recommendations := none,
    extracted_data := none }

/-- An external response carrying `daEmptyStatus` and a top-level status. -/
def flaskEmptyStatus : FlaskData :=
  { status := some "rejected", document_analysis := some daEmptyStatus,
    improvement_suggestions := none }

/-- An external response whose `overall_status` is COMPLETE. -/
def flaskComplete : FlaskData :=
  { status := none,
    document_analysis := some
      { overall_status := some "COMPLETE", confidence_level := some 88,
        completeness_score := some 97, processing_notes := none,
        validation_errors := none, recommendations := none, extracted_data := none },
    improvement_suggestions := none }

/-- Claim C4 counterexample: a present `overall_status` does not always pass
through verbatim — when it is the empty string (which JavaScript treats as
falsy) the normalizer falls back to the top-level status instead of passing
"" through. -/
theorem c4_counterexample :
    flaskEmptyStatus.document_analysis.bind (fun a => a.overall_status) = some "" ∧
    ("" : String) ≠ "COMPLETE" ∧ ("" : String) ≠ "INCOMPLETE" ∧
    (transformData flaskEmptyStatus).status = "rejected" ∧
    (transformData flaskEmptyStatus).status ≠ "" := by
  exact ⟨by decide, by decide, by decide, by decide, by decide⟩

/-- Claim C4 (amended): `overall_status` COMPLETE maps to "approved" and
INCOMPLETE to "pending"; any other present non-empty value passes through
verbatim; when `overall_status` is absent or empty the normalizer falls back
to a present non-empty top-level status, and to "pending" when that too is
absent or empty. -/
theorem c4_amended_status_mapping :
    ∀ d : FlaskData,
      (d.document_analysis.bind (fun a => a.overall_status) = some "COMPLETE" →
        (transformData d).status = "approved") ∧
      (d.document_analysis.bind (fun a => a.overall_status) = some "INCOMPLETE" →
        (transformData d).status = "pending") ∧
      (∀ s, d.document_analysis.bind (fun a => a.overall_status) = some s →
        s ≠ "COMPLETE" → s ≠ "INCOMPLETE" → s ≠ "" →
        (transformData d).status = s) ∧
      ((d.document_analysis.bind (fun a => a.overall_status) = none ∨
          d.document_analysis.bind (fun a => a.overall_status) = some "") →
        (∀ t, d.status = some t → t ≠ "" → (transformData d).status = t) ∧
        ((d.status = none ∨ d.status = some "") →
          (transformData d).status = "pending")) := by
  intro d
  refine ⟨?_, ?_, ?_, ?_⟩
  · intro h
    simp [transformData, h]
  · intro h
    simp [transformData, h]
  · intro s h h1 h2 h3
    simp [transformData, h, h1, h2, jsOrS, h3]
  · intro hos
    constructor
    · intro t ht ht'
      rcases hos with h | h <;> simp [transformData, h, ht, jsOrS, ht']
    · intro hst
      rcases hos with h | h <;> rcases hst with h' | h' <;>
        simp [transformData, h, h', jsOrS]

/-- Witness for C4's amended theorem: COMPLETE maps to "approved". -/
theorem c4_amended_status_mapping_witness :
    flaskComplete.document_analysis.bind (fun a => a.overall_status) = some "COMPLETE" ∧
    (transformData flaskComplete).status = "approved" :=
  ⟨by decide, (c4_amended_status_mapping flaskComplete).1 (by decide)⟩

/-! ## C5: initial claim status -/

/-- An analysis result whose status field is present but empty. -/
def arEmptyStatus : AnalysisResult :=
  ⟨some "", none, none, none, none, none, none⟩

/-- The scenario submission carrying `arEmptyStatus`. -/
def subWithEmptyStatus : Submission :=
  { subJohn with analysisResult := some arEmptyStatus }

/-- An analysis result with status "approved". -/
def arApproved : AnalysisResult :=
  ⟨some "approved", some 95, some 100, none, none, none, none⟩

/-- The scenario submission carrying `arApproved`. -/
def subWithApproved : Submission :=
  { subJohn with analysisResult := some arApproved }

/-- Claim C5 counterexample: an analysis result is present with status "",
yet the created claim's status is "pending" rather than the analysis
result's status — `analysisResult?.status || "pending"` treats the empty
string as falsy. -/
theorem c5_counterexample :
    subWithEmptyStatus.analysisResult = some arEmptyStatus ∧
    arEmptyStatus.status = some "" ∧
    (mkNewClaim [] subWithEmptyStatus [] "12/10/2026").status = "pending" ∧
    (mkNewClaim [] subWithEmptyStatus [] "12/10/2026").status ≠ "" := by
  exact ⟨by decide, by decide, by decide, by decide⟩

/-- Claim C5 (amended): the created claim's initial status equals the
submitted analysis result's status when one is present with a non-empty
status, and "pending" otherwise (no analysis result, status absent, or
status empty). -/
theorem c5_amended_initial_status :
    ∀ (store : List Claim) (sub : Submission) (files : List FileUpload) (today : String),
      (∀ ar s, sub.analysisResult = some ar → ar.status = some s → s ≠ "" →
        (mkNewClaim store sub files today).status = s) ∧
      (jsTruthyS (sub.analysisResult.bind (fun a => a.status)) = false →
        (mkNewClaim store sub files today).status = "pending") := by
  intro store sub files today
  constructor
  · intro ar s har hs hne
    simp [mkNewClaim, har, hs, jsOrS, hne]
  · intro h
    cases hb : sub.analysisResult.bind (fun a => a.status) with
    | none => simp [mkNewClaim, hb, jsOrS]
    | some s =>
      rw [hb] at h
      simp [jsTruthyS] at h
      simp [mkNewClaim, hb, jsOrS, h]

/-- Witness for C5's amended theorem: a present "approved" analysis status
becomes the claim's initial status. -/
theorem c5_amended_initial_status_witness :
    subWithApproved.analysisResult = some arApproved ∧
    arApproved.status = some "approved" ∧
    ("approved" : String) ≠ "" ∧
    (mkNewClaim [] subWithApproved [] "12/10/2026").status = "approved" :=
  ⟨by decide, by decide, by decide,
    (c5_amended_initial_status [] subWithApproved [] "12/10/2026").1 arApproved
      "approved" (by decide) (by decide) (by decide)⟩

/-! ## C6: initial timeline -/

/-- Claim C6: every created claim's timeline has exactly the fixed 5 stages;
stage 1 is completed with the current date; stage 2 ("Documents verified by
AI") is completed precisely when an analysis result was supplied, with its
date the current date in that case and empty otherwise; stages 3 through 5
start uncompleted with empty dates. -/
theorem c6_initial_timeline :
    ∀ (store : List Claim) (sub : Submission) (files : List FileUpload) (today : String),
      (mkNewClaim store sub files today).timeline =
        [ ⟨"Claim submitted", today, true⟩,
          ⟨"Documents verified by AI",
            if sub.analysisResult.isSome then today else "",
            sub.analysisResult.isSome⟩,
          ⟨"Under review by claim handler", "", false⟩,
          ⟨"Approved for payment", "", false⟩,
          ⟨"Payment processed", "", false⟩ ] ∧
      (mkNewClaim store sub files today).timeline.length = 5 := by
  intro store sub files today
  exact ⟨rfl, rfl⟩

/-! ## C7: status filter -/

/-- Claim C7 counterexample: the empty string is a status value distinct from
the sentinel "all", yet — because `status && status !== "all"` treats "" as
falsy — filtering by "" returns the whole store instead of the subsequence
whose members' status is "". -/
theorem c7_counterexample :
    ("" : String) ≠ "all" ∧
    getClaims [claimJohn] (some "") = [claimJohn] ∧
    List.filter (fun c => c.status = "") [claimJohn] = [] ∧
    getClaims [claimJohn] (some "") ≠
      List.filter (fun c => c.status = "") [claimJohn] := by
  exact ⟨by decide, by decide, by decide, by decide⟩

/-- Claim C7 (amended): for every non-empty status value other than "all",
the filter returns exactly the ordered subsequence of the store whose
members carry that status, and those subsequences partition the store
(each claim whose status is neither "" nor "all" appears in the filter of
its own status and in no other); when the status parameter is absent,
empty, or "all", the full ordered sequence is returned. -/
theorem c7_amended_filter :
    ∀ (store : List Claim) (s : String),
      (s ≠ "" → s ≠ "all" →
        getClaims store (some s) = store.filter (fun c => c.status = s)) ∧
      getClaims store none = store ∧
      getClaims store (some "all") = store ∧
      getClaims store (some "") = store ∧
      (∀ c ∈ store, c.status ≠ "" → c.status ≠ "all" →
        c ∈ getClaims store (some c.status) ∧
        (∀ t, t ≠ "" → t ≠ "all" → t ≠ c.status →
          c ∉ getClaims store (some t))) := by
  intro store s
  have hfil : ∀ u : String, u ≠ "" → u ≠ "all" →
      getClaims store (some u) = store.filter (fun c => c.status = u) := by
    intro u h1 h2
    simp [getClaims, h1, h2]
  refine ⟨hfil s, rfl, by simp [getClaims], by simp [getClaims], ?_⟩
  intro c hc h1 h2
  constructor
  · rw [hfil c.status h1 h2]
    exact List.mem_filter.mpr ⟨hc, by simp⟩
  · intro t ht1 ht2 ht3
    rw [hfil t ht1 ht2]
    intro hmem
    have hts : c.status = t := by simpa using (List.mem_filter.mp hmem).2
    exact ht3 hts.symm

/-- Witness for C7's amended theorem: filtering the one-claim store by
"pending" keeps the claim, filtering by "approved" drops it, and the
absent/"all" cases return everything. -/
theorem c7_amended_filter_witness :
    ("pending" : String) ≠ "" ∧ ("pending" : String) ≠ "all" ∧
    getClaims [claimJohn] (some "pending") =
      List.filter (fun c => c.status = "pending") [claimJohn] ∧
    getClaims [claimJohn] none = [claimJohn] :=
  ⟨by decide, by decide,
    (c7_amended_filter [claimJohn] "pending").1 (by decide) (by decide),
    (c7_amended_filter [claimJohn] "pending").2.1⟩

/-! ## C8: append then find -/

/-- Claim C8: when no stored claim already carries the id about to be
assigned (the id-uniqueness invariant the id scheme maintains), POST /claims
appends the created claim at the end of the store — preserving insertion
order — and GET /claims/{id} on the new claim's id returns exactly that
claim rather than the not-found signal. -/
theorem c8_append_then_find :
    ∀ (store : List Claim) (sub : Submission) (files : List FileUpload) (today : String),
      (∀ c ∈ store, c.id ≠ newClaimId store.length) →
      (postClaims store sub files today).1 =
        store ++ [(postClaims store sub files today).2.1] ∧
      getClaimById (postClaims store sub files today).1
          (postClaims store sub files today).2.1.id =
        some (postClaims store sub files today).2.1 := by
  intro store sub files today h
  refine ⟨rfl, ?_⟩
  show (store ++ [mkNewClaim store sub files today]).find?
      (fun c => c.id = (mkNewClaim store sub files today).id) =
    some (mkNewClaim store sub files today)
  rw [List.find?_append]
  have hnone : store.find?
      (fun c => c.id = (mkNewClaim store sub files today).id) = none := by
    rw [List.find?_eq_none]
    intro x hx
    simpa using h x hx
  rw [hnone]
  simp [List.find?]

/-- Witness for C8 on the empty store. -/
theorem c8_append_then_find_witness :
    (∀ c ∈ ([] : List Claim), c.id ≠ newClaimId 0) ∧
    getClaimById (postClaims [] subJohn [] "12/10/2026").1
        (postClaims [] subJohn [] "12/10/2026").2.1.id =
      some (postClaims [] subJohn [] "12/10/2026").2.1 :=
  ⟨by simp, (c8_append_then_find [] subJohn [] "12/10/2026" (by simp)).2⟩

/-! ## C9: proxy contract -/

/-- Claim C9: every proxied request is forwarded to base/path with the
matching method string and fixed JSON content-type header; GET and PUT
append the incoming query string while POST and DELETE do not; POST and PUT
forward the parsed JSON request body while GET and DELETE send none; when
the backend answers with a JSON body the proxy relays that status code and
body unchanged; and every failure — network error, unparsable backend body,
or unparsable incoming body — is collapsed into a 500 with the generic
per-method error message. -/
theorem c9_proxy_contract :
    ∀ (base : String) (req : ProxyRequest) (fr : ProxyFetch),
      (∀ o, outboundOf base req = some o →
        o.httpMethod = methodStr req.method ∧
        o.headers = [("Content-Type", "application/json")] ∧
        ((req.method = .get ∨ req.method = .put) →
          o.url = proxyUrl base req.path req.queryString true) ∧
        ((req.method = .post ∨ req.method = .delete) →
          o.url = proxyUrl base req.path req.queryString false) ∧
        ((req.method = .post ∨ req.method = .put) → o.body = req.jsonBody) ∧
        ((req.method = .get ∨ req.method = .delete) → o.body = none)) ∧
      (∀ st b, fr = ProxyFetch.resp st (some b) → outboundOf base req ≠ none →
        proxyHandle base req fr = ⟨st, .json b⟩) ∧
      ((fr = ProxyFetch.netErr ∨ (∃ st, fr = ProxyFetch.resp st none) ∨
          outboundOf base req = none) →
        proxyHandle base req fr = ⟨500, .errorMsg (proxyErrMsg req.method)⟩) := by
  intro base req fr
  obtain ⟨m, path, qs, hdrs, jb⟩ := req
  refine ⟨?_, ?_, ?_⟩
  · intro o ho
    cases m <;> simp [outboundOf] at ho
    case get => simp [← ho, methodStr]
    case delete => simp [← ho, methodStr]
    case post =>
      obtain ⟨b, hb, hob⟩ := ho
      simp [← hob, methodStr, hb]
    case put =>
      obtain ⟨b, hb, hob⟩ := ho
      simp [← hob, methodStr, hb]
  · intro st b hfr hob
    subst hfr
    cases hout : outboundOf base ⟨m, path, qs, hdrs, jb⟩ with
    | none => exact absurd hout hob
    | some o => simp [proxyHandle, hout]
  · intro hfail
    rcases hfail with h | ⟨st, h⟩ | h
    · subst h
      cases hout : outboundOf base ⟨m, path, qs, hdrs, jb⟩ <;>
        simp [proxyHandle, hout]
    · subst h
      cases hout : outboundOf base ⟨m, path, qs, hdrs, jb⟩ <;>
        simp [proxyHandle, hout]
    · simp [proxyHandle, h]

/-- A concrete incoming GET proxy request that carries an authorization
header. -/
def reqGetEx : ProxyRequest :=
  { method := .get, path := ["api", "claims"], queryString := "status=all",
    headers := [("authorization", "Bearer token123")], jsonBody := none }

/-- A concrete incoming POST proxy request to the same path carrying a
cookie header and a JSON array body. -/
def reqPostEx : ProxyRequest :=
  { method := .post, path := ["api", "claims"], queryString := "",
    headers := [("cookie", "session=abc")], jsonBody := some "[1,2]" }

/-- Witness for C9: a 200 backend response with JSON body is relayed
unchanged through a concrete GET. -/
theorem c9_proxy_contract_witness :
    outboundOf "http://localhost:8000" reqGetEx ≠ none ∧
    proxyHandle "http://localhost:8000" reqGetEx (ProxyFetch.resp 200 (some "[]")) =
      ⟨200, .json "[]"⟩ :=
  ⟨by decide,
    (c9_proxy_contract "http://localhost:8000" reqGetEx
      (ProxyFetch.resp 200 (some "[]"))).2.1 200 "[]" rfl (by decide)⟩

/-! ## C10: header noninterference -/

/-- Claim C10: the forwarded request's headers are exactly the fixed
Content-Type: application/json — no header of the incoming request reaches
the outbound request, so any two incoming requests to the same path produce
identical outbound headers. -/
theorem c10_outbound_headers_fixed :
    ∀ (base : String) (r1 r2 : ProxyRequest) (o1 o2 : OutboundRequest),
      r1.path = r2.path →
      outboundOf base r1 = some o1 → outboundOf base r2 = some o2 →
      o1.headers = o2.headers ∧
      o1.headers = [("Content-Type", "application/json")] := by
  have hh : ∀ (base : String) (r : ProxyRequest) (o : OutboundRequest),
      outboundOf base r = some o →
      o.headers = [("Content-Type", "application/json")] := by
    intro base r o ho
    obtain ⟨m, path, qs, hdrs, jb⟩ := r
    cases m <;> simp [outboundOf] at ho
    case get => simp [← ho]
    case delete => simp [← ho]
    case post =>
      obtain ⟨b, _, hob⟩ := ho
      simp [← hob]
    case put =>
      obtain ⟨b, _, hob⟩ := ho
      simp [← hob]
  intro base r1 r2 o1 o2 _ h1 h2
  have e1 := hh base r1 o1 h1
  have e2 := hh base r2 o2 h2
  exact ⟨e1.trans e2.symm, e1⟩

/-- The outbound request of the concrete GET above. -/
def obGetEx : OutboundRequest :=
  ⟨"http://localhost:8000/api/claims?status=all", "GET",
    [("Content-Type", "application/json")], none⟩

/-- The outbound request of the concrete POST above. -/
def obPostEx : OutboundRequest :=
  ⟨"http://localhost:8000/api/claims", "POST",
    [("Content-Type", "application/json")], some "[1,2]"⟩

/-- Witness for C10: two concrete incoming requests to the same path with
different headers (an authorization header and a cookie header) produce
outbound requests with identical, fixed headers. -/
theorem c10_outbound_headers_fixed_witness :
    reqGetEx.path = reqPostEx.path ∧
    outboundOf "http://localhost:8000" reqGetEx = some obGetEx ∧
    outboundOf "http://localhost:8000" reqPostEx = some obPostEx ∧
    obGetEx.headers = obPostEx.headers ∧
    obGetEx.headers = [("Content-Type", "application/json")] :=
  ⟨by decide, by decide, by decide,
    c10_outbound_headers_fixed "http://localhost:8000" reqGetEx reqPostEx obGetEx obPostEx
      (by decide) (by decide) (by decide)⟩

end MedClaims
